import Mathlib

/-!
Verification of the DLX link-layer verification components
(`cocotb_vip_templates`: `driver.py`, `monitor.py`, `bus.py`, and the two
testbench files).  Each Python coroutine that the claims refer to is embedded
as a pure Lean function over explicit signal-state records; the parts of the
protocol that live in the device under test (CRC engine, lane aggregator,
retransmission controller) are modelled from the specification, as marked.
-/

/-- The 64-bit lane mask `0xFFFFFFFFFFFFFFFF` used by the driver and the
testbench when striping a 512-bit flit across 8 lanes. -/
def laneMask : Nat := 0xFFFFFFFFFFFFFFFF

/-- From `driver.py`, `DLXDriver.send_dlx_flit` (line 102): split the 512-bit
flit data into 8 64-bit chunks, chunk `i` being
`(flit_data >> (i * 64)) & 0xFFFFFFFFFFFFFFFF`. -/
def data_chunks (flit_data : Nat) : List Nat :=
  (List.range 8).map (fun i => (flit_data >>> (i * 64)) &&& laneMask)

/-- From `test_ocx_dlx_top.py`, `check_dlx_tx_output` (lines 225-229): the
expected 64-bit data word for each of the 8 lanes,
`flit_data >> start_bit & 0xFFFFFFFFFFFFFFFF` with `start_bit = i * 64`. -/
def check_dlx_tx_expected (flit_data : Nat) : List Nat :=
  (List.range 8).map (fun i => (flit_data >>> (i * 64)) &&& laneMask)

/-- Reassembly of the 8 lane data words into a 512-bit payload: lane 0 is
least significant, lane `i` is placed at bit offset `64 * i`
(`payload = concat(lane[7].data, ..., lane[0].data)`). -/
def concat_lanes : List Nat → Nat
  | [] => 0
  | w :: ws => w + 2 ^ 64 * concat_lanes ws

/-- A single lane word as presented by `DLXDriver.send_dlx_flit`
(`driver.py` lines 103-106): 64-bit data, per-lane copy of the header, and a
validity flag. -/
structure LaneWord where
  data : Nat
  header : Nat
  valid : Bool
deriving DecidableEq

/-- From `driver.py`, `DLXDriver.send_dlx_flit` (lines 101-106): the 8 lane
words driven onto the RX lanes for one cycle — lane `i` carries
`data_chunks[i]`, every lane carries the same `header`, and every lane's
valid flag is asserted. -/
def send_dlx_flit_lanes (flit_data header : Nat) : List LaneWord :=
  (data_chunks flit_data).map (fun d => ⟨d, header, true⟩)

/-- Modelled from the spec: the CRC Engine (§4.1) is part of the device under
test and absent from the repository's Python sources.  The spec admits any
fixed algorithm such that a single-bit corruption of the payload changes the
value; this model folds the 8 lane words of the payload together with XOR. -/
def crc_compute (payload : Nat) : Nat :=
  (data_chunks payload).foldr (fun a b => a ^^^ b) 0

/-- Modelled from the spec: CRC validation (§4.1),
`validate(payload, crc_value) -> bool`. -/
def crc_validate (payload crc_value : Nat) : Bool :=
  crc_compute payload == crc_value

/-- A framing event: the 8 lane words plus the CRC computed over the payload
at send time (spec §3: the flit's `crc` is derived at send time and
re-validated at receive time). -/
structure Frame where
  lanes : List LaneWord
  crc : Nat

/-- Framing a flit for transmission: the lane split exactly as performed by
`DLXDriver.send_dlx_flit`, together with the send-time CRC (spec §4.2/§3). -/
def frame_flit (payload header : Nat) : Frame :=
  ⟨send_dlx_flit_lanes payload header, crc_compute payload⟩

/-- A flit as it emerges on the TLX RX side: reassembled payload, header and
CRC-error flag. -/
structure RxFlit where
  payload : Nat
  header : Nat
  crc_err : Bool
deriving DecidableEq

/-- Modelled from the spec: the Lane Deskew/Aggregator (§4.3) is part of the
device under test and absent from the repository's Python sources.  When all
8 lanes are simultaneously valid it concatenates the lane data in index order
to rebuild the payload, takes the header from the designated lane (lane 0),
runs CRC validation on the rebuilt payload, and tags the emitted flit with a
`crc_err` flag instead of discarding it. -/
def observe_lanes (lanes : List LaneWord) (crc : Nat) : Option RxFlit :=
  if lanes.length == 8 && lanes.all (fun l => l.valid) then
    let payload := concat_lanes (lanes.map (fun l => l.data))
    some ⟨payload, (lanes.map (fun l => l.header)).headD 0,
          !crc_validate payload crc⟩
  else none

/-- Flipping bit `b` of a payload, the single-bit corruption the CRC claims
quantify over (`run_crc_error_test` corrupts lane data with XOR). -/
def flip_bit (p b : Nat) : Nat := p ^^^ 2 ^ b

/-- The TLX-side input signals driven by `DLXDriver.send_tlx_flit`
(`driver.py` lines 81-92). -/
structure TlxSigs where
  tlx_dlx_flit_valid : Nat
  tlx_dlx_flit : Nat
  tlx_dlx_debug_encode : Nat
deriving DecidableEq

/-- The caller-visible outcome of a driver coroutine.  `Stalled` is the
back-pressure condition named by the spec; the Python body of
`send_tlx_flit` contains no such return value and no raise, so the only
outcome it can produce is `Returned` (Python `None`). -/
inductive DriverOutcome where
  | Returned
  | Stalled
deriving DecidableEq

/-- The signal activity of one `send_tlx_flit` call, which spans a single
rising clock edge: the values driven until the edge, the values after it,
and the outcome reported to the caller. -/
structure SendEffect where
  during : TlxSigs
  after : TlxSigs
  outcome : DriverOutcome
deriving DecidableEq

/-- From `driver.py`, `DLXDriver.send_tlx_flit` (lines 81-92): assert
`tlx_dlx_flit_valid`, drive the flit and header, wait one rising edge, then
deassert valid.  The body consults no credit state and returns `None`
unconditionally. -/
def send_tlx_flit (s : TlxSigs) (flit_data header : Nat) : SendEffect :=
  let during : TlxSigs :=
    { s with
      tlx_dlx_flit_valid := 1
      tlx_dlx_flit := flit_data
      tlx_dlx_debug_encode := header }
  { during := during
    after := { during with tlx_dlx_flit_valid := 0 }
    outcome := DriverOutcome.Returned }

/-- Result record of `DLXDriver.wait_for_linkup`: how many rising edges were
waited, whether the timeout error message was logged, and whether anything
was raised to the caller — the Python body contains no `raise` statement, so
the embedding can only ever produce `raisedToCaller = false`. -/
structure LinkupWait where
  cyclesWaited : Nat
  errorLogged : Bool
  raisedToCaller : Bool
deriving DecidableEq

/-- The polling loop of `wait_for_linkup` (`driver.py` lines 72-74): while
the sampled `rx_tx_linkup` value is not 1 and `count < timeout_ticks`, wait
one rising edge and increment the count.  `linkup n` is the value of
`rx_tx_linkup` after `n` rising edges; since the count grows by one per
iteration and the loop exits as soon as `count < timeout_ticks` fails, a
fuel of `timeout_ticks` bounds the iteration count exactly. -/
def linkup_loop (linkup : Nat → Nat) (timeout_ticks : Nat) : Nat → Nat → Nat
  | 0, count => count
  | fuel + 1, count =>
    if linkup count ≠ 1 ∧ count < timeout_ticks then
      linkup_loop linkup timeout_ticks fuel (count + 1)
    else count

/-- From `driver.py`, `DLXDriver.wait_for_linkup` (lines 61-79), with the
clock period in nanoseconds taken as a parameter (the Python derives it from
the clock frequency): compute the cycle budget `timeout_ticks`, poll
`rx_tx_linkup` once per rising edge, and afterwards log an error exactly when
the count reached the budget.  The function returns normally in all cases. -/
def wait_for_linkup (linkup : Nat → Nat) (timeout_ns clock_period_ns : Nat) :
    LinkupWait :=
  let timeout_ticks := timeout_ns / clock_period_ns
  let c := linkup_loop linkup timeout_ticks timeout_ticks 0
  { cyclesWaited := c
    errorLogged := decide (c ≥ timeout_ticks)
    raisedToCaller := false }

/-- One step of a driver coroutine as scheduled against the clock: either
set the reset signal to a value or wait for one rising clock edge. -/
inductive ResetEvent where
  | setReset (v : Nat)
  | waitEdge
deriving DecidableEq

/-- From `driver.py`, `DLXDriver.apply_reset_sequence` (lines 51-59): assert
reset, hold it across two rising edges, deassert it, and wait one further
edge. -/
def apply_reset_sequence : List ResetEvent :=
  [ResetEvent.setReset 1, ResetEvent.waitEdge, ResetEvent.waitEdge,
   ResetEvent.setReset 0, ResetEvent.waitEdge]

/-- Number of rising clock edges that elapse while the reset signal holds
the value 1, given its value `r` on entry to the sequence. -/
def edgesWhileAsserted : List ResetEvent → Nat → Nat
  | [], _ => 0
  | ResetEvent.setReset v :: rest, _ => edgesWhileAsserted rest v
  | ResetEvent.waitEdge :: rest, r =>
    (if r = 1 then 1 else 0) + edgesWhileAsserted rest r

/-- Number of rising clock edges that elapse strictly before the reset
signal is first set to 0. -/
def edgesBeforeDeassert : List ResetEvent → Nat
  | [] => 0
  | ResetEvent.setReset 0 :: _ => 0
  | ResetEvent.setReset _ :: rest => edgesBeforeDeassert rest
  | ResetEvent.waitEdge :: rest => 1 + edgesBeforeDeassert rest

/-- The per-lane RX signals of the DUT driven by `send_dlx_flit`: data,
header and valid for each of the 8 lanes. -/
structure RxLaneSigs where
  ln_rx_data : Fin 8 → Nat
  ln_rx_header : Fin 8 → Nat
  ln_rx_valid : Fin 8 → Nat

/-- From `driver.py`, `DLXDriver.send_dlx_flit` (lines 101-110): drive each
lane's data chunk, the shared header and valid = 1, wait one rising edge,
then clear every lane's valid flag.  `during` holds the signal values over
the single cycle for which the flit is presented, `after` the values from
the following cycle on. -/
def send_dlx_flit (s : RxLaneSigs) (flit_data header : Nat) :
    RxLaneSigs × RxLaneSigs :=
  let during : RxLaneSigs :=
    { ln_rx_data := fun i => (data_chunks flit_data).getD i.val 0
      ln_rx_header := fun _ => header
      ln_rx_valid := fun _ => 1 }
  (during, { during with ln_rx_valid := fun _ => 0 })

/-- The TLX RX signals read by `DLXMonitor.observe_tlx_rx_flit`
(`monitor.py` lines 43-53). -/
structure TlxRxSigs where
  dlx_tlx_flit_valid : Nat
  dlx_tlx_flit : Nat
  dlx_tlx_flit_crc_err : Nat
deriving DecidableEq

/-- From `monitor.py`, `DLXMonitor.observe_tlx_rx_flit` (lines 43-53): after
the valid edge, return the tuple `(flit, header, crc_error)`, where both the
header and the CRC-error components are read from the
`dlx_tlx_flit_crc_err` signal. -/
def observe_tlx_rx_flit (s : TlxRxSigs) : Nat × Nat × Nat :=
  (s.dlx_tlx_flit, s.dlx_tlx_flit_crc_err, s.dlx_tlx_flit_crc_err)

/-- The arguments that the `Bus` constructor forwards to the cocotb bus base
class which the claims are about (`bus.py` lines 74-82). -/
structure BusSuperArgs where
  name : String
  reset_active_level : Bool
deriving DecidableEq

/-- From `bus.py`, `Bus.__init__` (lines 74-82): the base-class constructor
receives `reset_active_level = not active_high_reset`. -/
def bus_super_args (active_high_reset : Bool) : BusSuperArgs :=
  { name := "dlx_bus", reset_active_level := !active_high_reset }

/-- Default value of the `active_high_reset` argument (`bus.py` line 15). -/
def active_high_reset_default : Bool := true

/-- A TX-side flit: payload and header as accepted from the TLX interface. -/
structure TxFlit where
  payload : Nat
  header : Nat
deriving DecidableEq

/-- Status of one send attempt at the TX protocol layer. -/
inductive SendStatus where
  | Accepted
  | SendStalled
deriving DecidableEq

/-- Modelled from the spec: the TX-side protocol state that the
Retransmission Controller (§4.6) and Credit Tracker (§4.5) maintain inside
the device under test, absent from the repository's Python sources: the
retransmit buffer of in-flight flits (head = oldest), the available credit
count, and the chronological log of framing events presented on the lanes. -/
structure TxState where
  buffer : List TxFlit
  available : Nat
  presented : List (List LaneWord)
deriving DecidableEq

/-- Modelled from the spec: accepting a flit for transmission (§4.2, §4.5,
§4.6), absent from the repository's Python sources: if a credit is
available, reserve it, push the flit into the retransmit buffer and present
it through the Lane Framer; otherwise report stalled and present nothing. -/
def tx_send (st : TxState) (f : TxFlit) : TxState × SendStatus :=
  if st.available > 0 then
    ({ buffer := st.buffer ++ [f]
       available := st.available - 1
       presented := st.presented ++ [send_dlx_flit_lanes f.payload f.header] },
     SendStatus.Accepted)
  else (st, SendStatus.SendStalled)

/-- Modelled from the spec: NACK handling (§4.6), absent from the
repository's Python sources: on observing NACK, re-present the
head-of-buffer flit unchanged through the Lane Framer on the next eligible
cycle, without consuming a new credit. -/
def tx_nack (st : TxState) : TxState :=
  match st.buffer with
  | [] => st
  | f :: _ =>
    { st with
      presented := st.presented ++ [send_dlx_flit_lanes f.payload f.header] }

theorem data_chunks_eq (p : Nat) :
    data_chunks p =
      [p &&& laneMask, (p >>> 64) &&& laneMask, (p >>> 128) &&& laneMask,
       (p >>> 192) &&& laneMask, (p >>> 256) &&& laneMask,
       (p >>> 320) &&& laneMask, (p >>> 384) &&& laneMask,
       (p >>> 448) &&& laneMask] := rfl

theorem laneMask_eq : laneMask = 2 ^ 64 - 1 := by norm_num [laneMask]

theorem and_laneMask_eq_mod (x : Nat) : x &&& laneMask = x % 2 ^ 64 := by
  rw [laneMask_eq, Nat.and_pow_two_sub_one_eq_mod]

set_option exponentiation.threshold 600 in
/-- Striping then concatenating the 8 lane words reproduces any 512-bit
payload. -/
theorem concat_lanes_data_chunks (p : Nat) (hp : p < 2 ^ 512) :
    concat_lanes (data_chunks p) = p := by
  rw [data_chunks_eq]
  simp only [concat_lanes, and_laneMask_eq_mod, Nat.shiftRight_eq_div_pow]
  norm_num
  omega

/-- C2: lane striping layout.  For every 512-bit payload, lane `i` carries
payload bits `[64*i+63 : 64*i]` (so lane 0 is the least-significant 64 bits),
concatenating lane 7 down to lane 0 reproduces the payload, and the TX-side
split of `send_dlx_flit` and the expected-value computation of
`check_dlx_tx_output` use this exact layout. -/
theorem send_dlx_flit_lane_layout (p : Nat) (hp : p < 2 ^ 512) :
    (∀ i, i < 8 → (data_chunks p).getD i 0 = p / 2 ^ (64 * i) % 2 ^ 64) ∧
    concat_lanes (data_chunks p) = p ∧
    check_dlx_tx_expected p = data_chunks p := by
  refine ⟨?_, concat_lanes_data_chunks p hp, rfl⟩
  intro i hi
  interval_cases i <;>
    simp [data_chunks_eq, and_laneMask_eq_mod, Nat.shiftRight_eq_div_pow]

/-- Witness for `send_dlx_flit_lane_layout` at the concrete payload 3. -/
theorem send_dlx_flit_lane_layout_witness :
    (3 : Nat) < 2 ^ 512 ∧ concat_lanes (data_chunks 3) = 3 :=
  ⟨by norm_num, (send_dlx_flit_lane_layout 3 (by norm_num)).2.1⟩

theorem shiftRight_xor_distrib (x y n : Nat) :
    (x ^^^ y) >>> n = (x >>> n) ^^^ (y >>> n) :=
  Nat.eq_of_testBit_eq (fun i => by simp)

theorem crc_unfold (x : Nat) :
    crc_compute x =
      (x &&& laneMask) ^^^ (((x >>> 64) &&& laneMask) ^^^
      (((x >>> 128) &&& laneMask) ^^^ (((x >>> 192) &&& laneMask) ^^^
      (((x >>> 256) &&& laneMask) ^^^ (((x >>> 320) &&& laneMask) ^^^
      (((x >>> 384) &&& laneMask) ^^^ ((x >>> 448) &&& laneMask))))))) := by
  rw [crc_compute, data_chunks_eq]
  simp only [List.foldr_cons, List.foldr_nil, Nat.xor_zero]

/-- The XOR-fold CRC is linear over XOR of payloads. -/
theorem crc_compute_xor (x y : Nat) :
    crc_compute (x ^^^ y) = crc_compute x ^^^ crc_compute y := by
  rw [crc_unfold (x ^^^ y), crc_unfold x, crc_unfold y]
  simp only [shiftRight_xor_distrib, Nat.and_xor_distrib_right]
  ac_rfl

theorem crc_compute_two_pow_testBit (b : Nat) (hb : b < 512) :
    (crc_compute (2 ^ b)).testBit (b % 64) = true := by
  obtain ⟨q, r, hr, rfl⟩ : ∃ q r, r < 64 ∧ b = 64 * q + r :=
    ⟨b / 64, b % 64, Nat.mod_lt _ (by norm_num), (Nat.div_add_mod b 64).symm⟩
  have hq : q < 8 := by omega
  have hmod : (64 * q + r) % 64 = r := by omega
  rw [hmod, crc_unfold]
  simp only [laneMask_eq, Nat.testBit_xor, Nat.testBit_and, Nat.testBit_shiftRight,
    Nat.testBit_two_pow_sub_one, Nat.testBit_two_pow]
  interval_cases q <;> simp [hr]

theorem crc_compute_two_pow_ne_zero (b : Nat) (hb : b < 512) :
    crc_compute (2 ^ b) ≠ 0 := by
  intro h0
  have ht := crc_compute_two_pow_testBit b hb
  rw [h0] at ht
  simp [Nat.zero_testBit] at ht

/-- Flipping any single bit of a 512-bit payload changes the CRC. -/
theorem crc_compute_flip_ne (p b : Nat) (hb : b < 512) :
    crc_compute (flip_bit p b) ≠ crc_compute p := by
  rw [flip_bit, crc_compute_xor]
  intro h
  have hz : crc_compute (2 ^ b) = 0 := by
    calc crc_compute (2 ^ b)
        = crc_compute p ^^^ (crc_compute p ^^^ crc_compute (2 ^ b)) :=
          (Nat.xor_cancel_left _ _).symm
      _ = crc_compute p ^^^ crc_compute p := by rw [h]
      _ = 0 := Nat.xor_self _
  exact crc_compute_two_pow_ne_zero b hb hz

theorem flip_bit_ne (p b : Nat) : flip_bit p b ≠ p := by
  rw [flip_bit]
  intro h
  have hz : (2 : Nat) ^ b = 0 := by
    calc (2 : Nat) ^ b = p ^^^ (p ^^^ 2 ^ b) := (Nat.xor_cancel_left _ _).symm
      _ = p ^^^ p := by rw [h]
      _ = 0 := Nat.xor_self _
  exact absurd hz (Nat.pos_iff_ne_zero.mp (Nat.pos_pow_of_pos b (by norm_num)))

theorem flip_bit_lt (p b : Nat) (hp : p < 2 ^ 512) (hb : b < 512) :
    flip_bit p b < 2 ^ 512 :=
  Nat.xor_lt_two_pow hp (Nat.pow_lt_pow_right (by norm_num) hb)

/-- C1: round trip.  For every 512-bit payload `p` and header `h < 4`, framing
`p` into 8 lanes (the `send_dlx_flit` lane split) and reassembling the 8 lane
words yields a flit whose payload equals `p`, whose header equals `h`, and
whose `crc_err` flag is false. -/
theorem frame_observe_round_trip (p h : Nat) (hp : p < 2 ^ 512) (hh : h < 4) :
    observe_lanes (frame_flit p h).lanes (frame_flit p h).crc =
      some ⟨p, h, false⟩ := by
  have hc := concat_lanes_data_chunks p hp
  unfold frame_flit observe_lanes send_dlx_flit_lanes
  rw [data_chunks_eq] at hc ⊢
  simp [crc_validate, hc]

/-- Witness for `frame_observe_round_trip` at payload 3, header 2. -/
theorem frame_observe_round_trip_witness :
    (3 : Nat) < 2 ^ 512 ∧ (2 : Nat) < 4 ∧
    observe_lanes (frame_flit 3 2).lanes (frame_flit 3 2).crc =
      some ⟨3, 2, false⟩ :=
  ⟨by norm_num, by norm_num, frame_observe_round_trip 3 2 (by norm_num) (by norm_num)⟩

/-- C5: CRC sensitivity.  Flipping any single bit of the payload after framing
but before validation yields a received flit that is surfaced (not dropped and
not an exception) with `crc_err = true` and a payload differing from the
original. -/
theorem crc_single_bit_flip_detected (p b h : Nat) (hp : p < 2 ^ 512) (hb : b < 512) :
    observe_lanes (send_dlx_flit_lanes (flip_bit p b) h) (crc_compute p) =
      some ⟨flip_bit p b, h, true⟩ ∧ flip_bit p b ≠ p := by
  refine ⟨?_, flip_bit_ne p b⟩
  have hc := concat_lanes_data_chunks (flip_bit p b) (flip_bit_lt p b hp hb)
  have hne := crc_compute_flip_ne p b hb
  unfold observe_lanes send_dlx_flit_lanes
  rw [data_chunks_eq] at hc ⊢
  simp [crc_validate, hc, hne]

/-- Witness for `crc_single_bit_flip_detected` at payload 3, bit 0, header 1. -/
theorem crc_single_bit_flip_detected_witness :
    (3 : Nat) < 2 ^ 512 ∧ (0 : Nat) < 512 ∧
    (observe_lanes (send_dlx_flit_lanes (flip_bit 3 0) 1) (crc_compute 3) =
      some ⟨flip_bit 3 0, 1, true⟩ ∧ flip_bit 3 0 ≠ 3) :=
  ⟨by norm_num, by norm_num, crc_single_bit_flip_detected 3 0 1 (by norm_num) (by norm_num)⟩

/-- C3 counterexample: a send attempt made while the DUT's available credit
count is 0 — `send_tlx_flit` takes no credit input and cannot observe the
credit counter at all — still presents the flit (`tlx_dlx_flit_valid` is
driven to 1 for the cycle) and reports no `Stalled` condition to the caller,
contradicting the claim that such a send does not present the flit and is
reported as stalled. -/
theorem send_tlx_flit_counterexample :
    ¬ ((send_tlx_flit ⟨0, 0, 0⟩ 7 1).during.tlx_dlx_flit_valid = 0 ∨
       (send_tlx_flit ⟨0, 0, 0⟩ 7 1).outcome = DriverOutcome.Stalled) := by
  decide

/-- C3 amended: for every send attempt — whatever the DUT's credit count
`credit` is, including 0 — `send_tlx_flit` presents the flit unconditionally
(valid is asserted with the flit data for one cycle, then deasserted) and
always returns normally; it never reports a `Stalled` condition, and it
neither errors nor drops the flit data.  Back-pressure is observable only
through the DUT's `dlx_tlx_flit_credit` signal, as `run_flow_control_test`
does. -/
theorem send_tlx_flit_unconditional (credit : Nat) (s : TlxSigs)
    (flit_data header : Nat) :
    (send_tlx_flit s flit_data header).during.tlx_dlx_flit_valid = 1 ∧
    (send_tlx_flit s flit_data header).during.tlx_dlx_flit = flit_data ∧
    (send_tlx_flit s flit_data header).during.tlx_dlx_debug_encode = header ∧
    (send_tlx_flit s flit_data header).after.tlx_dlx_flit_valid = 0 ∧
    (send_tlx_flit s flit_data header).outcome = DriverOutcome.Returned :=
  ⟨rfl, rfl, rfl, rfl, rfl⟩

theorem linkup_loop_le (linkup : Nat → Nat) (t : Nat) :
    ∀ fuel c, linkup_loop linkup t fuel c ≤ max c t := by
  intro fuel
  induction fuel with
  | zero => intro c; exact Nat.le_max_left c t
  | succ n ih =>
    intro c
    rw [linkup_loop]
    split
    · next h =>
      have h2 := h.2
      have h3 := ih (c + 1)
      omega
    · exact Nat.le_max_left c t

theorem linkup_loop_stuck (linkup : Nat → Nat) (t : Nat)
    (hall : ∀ k, linkup k ≠ 1) :
    ∀ fuel c, t ≤ c + fuel → c ≤ t → linkup_loop linkup t fuel c = t := by
  intro fuel
  induction fuel with
  | zero =>
    intro c h1 h2
    rw [linkup_loop]
    omega
  | succ n ih =>
    intro c h1 h2
    rw [linkup_loop]
    split
    · next h => exact ih (c + 1) (by omega) (by omega)
    · next h =>
      simp only [hall c, ne_eq, not_false_eq_true, true_and, Nat.not_lt] at h
      omega

/-- C4 counterexample: with `rx_tx_linkup` never asserted, a 100 ns timeout
and a 10 ns clock period, `wait_for_linkup` exhausts its 10-cycle budget,
logs an error message and returns normally — no `LinkupTimeout` failure is
raised to the caller, contradicting the claim that the operation fails with
a distinguishable failure raised to the caller. -/
theorem wait_for_linkup_counterexample :
    (wait_for_linkup (fun _ => 0) 100 10).errorLogged = true ∧
    ¬ ((wait_for_linkup (fun _ => 0) 100 10).raisedToCaller = true) := by
  decide

/-- C4 amended: `wait_for_linkup` never blocks forever — it terminates
within the cycle budget `timeout_ns / clock_period_ns` obtained from the
clock period — and when `LINK_UP` is never reached it logs a timeout error
message and returns normally instead of raising a failure to the caller. -/
theorem wait_for_linkup_terminates (linkup : Nat → Nat)
    (timeout_ns clock_period_ns : Nat) :
    (wait_for_linkup linkup timeout_ns clock_period_ns).cyclesWaited ≤
      timeout_ns / clock_period_ns ∧
    (wait_for_linkup linkup timeout_ns clock_period_ns).raisedToCaller = false ∧
    ((∀ k, linkup k ≠ 1) →
      (wait_for_linkup linkup timeout_ns clock_period_ns).errorLogged = true) := by
  refine ⟨?_, rfl, ?_⟩
  · have h := linkup_loop_le linkup (timeout_ns / clock_period_ns)
      (timeout_ns / clock_period_ns) 0
    simpa [wait_for_linkup] using h
  · intro hall
    have h := linkup_loop_stuck linkup (timeout_ns / clock_period_ns) hall
      (timeout_ns / clock_period_ns) 0 (by simp) (Nat.zero_le _)
    simp [wait_for_linkup, h]

/-- Witness for `wait_for_linkup_terminates` on the concrete trace where
`rx_tx_linkup` stays 0, with a 100 ns timeout and a 10 ns clock period. -/
theorem wait_for_linkup_terminates_witness :
    (wait_for_linkup (fun _ => 0) 100 10).cyclesWaited ≤ 100 / 10 ∧
    (wait_for_linkup (fun _ => 0) 100 10).raisedToCaller = false ∧
    (wait_for_linkup (fun _ => 0) 100 10).errorLogged = true := by
  have h := wait_for_linkup_terminates (fun _ => 0) 100 10
  exact ⟨h.1, h.2.1, h.2.2 (fun k => by simp)⟩

/-- C6: NACK retransmission.  Sending a flit while the link is up (with at
least one credit available), then signaling NACK once, re-presents that flit
on the lanes bit-identically — the same lane split of the same payload with
the same header — as the very next presentation, and the retransmission
consumes no credit beyond the original reservation (exactly one credit is
consumed in total). -/
theorem nack_retransmits_head_flit (p h a : Nat) (ha : 0 < a) :
    (tx_nack (tx_send ⟨[], a, []⟩ ⟨p, h⟩).1).presented =
      [send_dlx_flit_lanes p h, send_dlx_flit_lanes p h] ∧
    (tx_nack (tx_send ⟨[], a, []⟩ ⟨p, h⟩).1).available = a - 1 ∧
    (tx_send ⟨[], a, []⟩ ⟨p, h⟩).2 = SendStatus.Accepted := by
  simp [tx_send, tx_nack, ha]

/-- Witness for `nack_retransmits_head_flit` at payload 5, header 2, one
available credit. -/
theorem nack_retransmits_head_flit_witness :
    (0 : Nat) < 1 ∧
    ((tx_nack (tx_send ⟨[], 1, []⟩ ⟨5, 2⟩).1).presented =
      [send_dlx_flit_lanes 5 2, send_dlx_flit_lanes 5 2] ∧
    (tx_nack (tx_send ⟨[], 1, []⟩ ⟨5, 2⟩).1).available = 1 - 1 ∧
    (tx_send ⟨[], 1, []⟩ ⟨5, 2⟩).2 = SendStatus.Accepted) :=
  ⟨by decide, nack_retransmits_head_flit 5 2 1 (by decide)⟩

/-- C7: the reset sequence asserts reset, holds it across exactly two rising
clock edges — at least the required two — and only then deasserts it; no
execution of the sequence deasserts reset earlier than 2 cycles after
assertion. -/
theorem apply_reset_sequence_holds_two_cycles :
    edgesWhileAsserted apply_reset_sequence 0 = 2 ∧
    2 ≤ edgesBeforeDeassert apply_reset_sequence := by
  decide

/-- C8: a single `send_dlx_flit` call asserts all 8 per-lane valid signals
together for exactly the one cycle on which the lane words are presented,
and every lane's valid signal is deasserted from the following cycle on —
valid is never left asserted for a second consecutive cycle. -/
theorem send_dlx_flit_valid_one_cycle (s : RxLaneSigs) (flit_data header : Nat)
    (i : Fin 8) :
    (send_dlx_flit s flit_data header).1.ln_rx_valid i = 1 ∧
    (send_dlx_flit s flit_data header).2.ln_rx_valid i = 0 :=
  ⟨rfl, rfl⟩

/-- C9: the header component of the tuple returned by
`observe_tlx_rx_flit` always equals the CRC-error component, both being read
from the `dlx_tlx_flit_crc_err` signal; the header is never taken from a
header signal. -/
theorem observe_tlx_rx_flit_header_is_crc_err (s : TlxRxSigs) :
    (observe_tlx_rx_flit s).2.1 = (observe_tlx_rx_flit s).2.2 ∧
    (observe_tlx_rx_flit s).2.1 = s.dlx_tlx_flit_crc_err :=
  ⟨rfl, rfl⟩

/-- C10: the bus base class always receives `reset_active_level` equal to
the logical negation of `active_high_reset`, so with the default
`active_high_reset = True` the bus is configured as if the reset were
active-low. -/
theorem bus_reset_active_level_negated :
    (∀ b, (bus_super_args b).reset_active_level = !b) ∧
    (bus_super_args active_high_reset_default).reset_active_level = false :=
  ⟨fun _ => rfl, rfl⟩
